import Mathlib

/-!
# Space-debris game: shallow embedding of `src/src/lib.rs`

The repository is a `no_std` arcade game: a player marker dodges debris
moving right-to-left on an 80×25 character grid.  This file embeds the
game's state machine — the player, the debris entities (including the
`oorandom::Rand32` PCG32 generator that seeds their spawn parameters),
the bounded debris pool and the `SpaceDebrisGame` controller — as pure
Lean functions, and proves properties of the per-tick update, the key
handler, collision, scoring, spawning and reset.

Rendering calls (`plot`, `plot_str`, `plot_num`, `clear_row`,
`display_score`, `display_title_screen`) write to the VGA text buffer
and carry no game state; they are omitted from the embedding.  Machine
integers are modelled as `Nat` with explicit `% 2^32` / `% 2^64`
reductions exactly where the Rust types (`u32`, `u64`) wrap.
-/

/-- `2^32`, the modulus of `u32` arithmetic. -/
def U32 : Nat := 4294967296

/-- `2^64`, the modulus of `u64` arithmetic. -/
def U64 : Nat := 18446744073709551616

/-- `BUFFER_WIDTH` of the VGA text buffer (the grid width). -/
def BUFFER_WIDTH : Nat := 80

/-- `BUFFER_HEIGHT` of the VGA text buffer (the grid height). -/
def BUFFER_HEIGHT : Nat := 25

/-- The VGA `Color` palette (`pluggable_interrupt_os::vga_buffer::Color`). -/
inductive Color where
  | Black | Blue | Green | Cyan | Red | Magenta | Brown | LightGray
  | DarkGray | LightBlue | LightGreen | LightCyan | LightRed | Pink
  | Yellow | White
  deriving DecidableEq, Repr

/-- `DEBRIS_COLORS`: the fixed 13-color palette debris colors are drawn from. -/
def DEBRIS_COLORS : List Color :=
  [Color.Blue, Color.Green, Color.Cyan, Color.Red, Color.Magenta,
   Color.LightGray, Color.LightBlue, Color.LightGreen, Color.LightCyan,
   Color.LightRed, Color.Pink, Color.Yellow, Color.White]

def CW_SPAWN_RATE : Nat := 8
def RMT_SPAWN_RATE : Nat := 6
def N_SPAWN_RATE : Nat := 3
def CW_LOWER_SPEED : Nat := 3
def CW_UPPER_SPEED : Nat := 7
def RMT_LOWER_SPEED : Nat := 2
def RMT_UPPER_SPEED : Nat := 5
def N_LOWER_SPEED : Nat := 1
def N_UPPER_SPEED : Nat := 2

inductive GameStatus where
  | GameRunning
  | GameStopped
  deriving DecidableEq, Repr

inductive Difficulty where
  | Undefined
  | Cakewalk
  | RMT
  | Nightmare
  deriving DecidableEq, Repr

inductive DebrisStatus where
  | Normal
  | ScorePoint
  | Destroy
  deriving DecidableEq, Repr

/-!
## `oorandom::Rand32` (PCG32)

`Debris::new` draws its row, speed and color from `oorandom::Rand32`, a
PCG32 generator over `u64` state.  The embedding follows the crate:
`rand_u32` is the PCG output step, `new` runs the two warm-up steps of
`new_inc` with the default increment, and `rand_range` is Lemire's
debiased multiplication.  The debiasing rejection loop re-rolls while the
low 32 bits of `m` fall below the threshold `t`; it is modelled with a
fuel argument (the loop has no structural bound), and every property
proved below is independent of the fuel value.
-/

def RAND_MULTIPLIER : Nat := 6364136223846793005

def RAND_DEFAULT_INC : Nat := 1442695040888963407

structure Rand32 where
  state : Nat
  inc : Nat
  deriving DecidableEq, Repr

/-- `u32::rotate_right` for a rotation amount `r < 32`. -/
def ror32 (x r : Nat) : Nat :=
  ((x >>> r) ||| (x <<< ((32 - r) % 32))) % U32

/-- The PCG32 output step: returns the drawn `u32` and the stepped state. -/
def Rand32.rand_u32 (rng : Rand32) : Nat × Rand32 :=
  let oldstate := rng.state
  let newstate := (oldstate * RAND_MULTIPLIER + rng.inc) % U64
  let xorshifted := (((oldstate >>> 18) ^^^ oldstate) >>> 27) % U32
  let rot := oldstate >>> 59
  (ror32 xorshifted rot, { rng with state := newstate })

/-- `Rand32::new_inc`: seat the increment, then two warm-up output steps
with the seed folded in between them. -/
def Rand32.new_inc (seed increment : Nat) : Rand32 :=
  let rng0 : Rand32 := { state := 0, inc := ((increment <<< 1) ||| 1) % U64 }
  let rng1 := rng0.rand_u32.2
  let rng2 : Rand32 := { rng1 with state := (rng1.state + seed) % U64 }
  rng2.rand_u32.2

/-- `Rand32::new`: seed with the crate's default increment. -/
def Rand32.new (seed : Nat) : Rand32 :=
  Rand32.new_inc seed RAND_DEFAULT_INC

/-- The rejection loop of Lemire's method: while the low 32 bits of `m`
are below `t`, redraw `x` and retry with `m = x * s`.  `fuel` bounds the
iteration count; on exhaustion the current `m` is kept (all theorems
below hold for every fuel value). -/
def Rand32.rand_range_go (s t : Nat) : Nat → Nat → Rand32 → Nat × Rand32
  | 0, m, rng => (m, rng)
  | fuel + 1, m, rng =>
      if m % U32 < t then
        let xr := rng.rand_u32
        Rand32.rand_range_go s t fuel (xr.1 * s) xr.2
      else (m, rng)

/-- `Rand32::rand_range(start..stop)`: Lemire's debiased integer
multiplication.  `t` is `s.wrapping_neg() % s` (i.e. `2^32 % s`), guarded
so an empty range returns `start` as the crate does. -/
def Rand32.rand_range (rng : Rand32) (start stop : Nat) : Nat × Rand32 :=
  let s := stop - start
  let xr := rng.rand_u32
  let t := if s = 0 then 0 else U32 % s
  let mr := Rand32.rand_range_go s t 64 (xr.1 * s) xr.2
  (mr.1 / U32 + start, mr.2)

/-!
## Entities
-/

structure Player where
  col : Nat
  row : Nat
  dy : Int
  game_status : GameStatus
  deriving DecidableEq, Repr

structure Debris where
  col : Nat
  row : Nat
  dx : Nat
  dx_tick : Nat
  color : Color
  debris_status : DebrisStatus
  deriving DecidableEq, Repr

/-- `safe_add::<LIMIT>(a, b) = (a + b).mod_floor(&LIMIT)`. -/
def safe_add (LIMIT a b : Nat) : Nat :=
  (a + b) % LIMIT

/-- `add1::<LIMIT>` -/
def add1 (LIMIT value : Nat) : Nat :=
  safe_add LIMIT value 1

/-- `sub1::<LIMIT>` -/
def sub1 (LIMIT value : Nat) : Nat :=
  safe_add LIMIT value (LIMIT - 1)

/-- `Player::default()`: spawn pose, stopped. -/
def Player.default : Player :=
  { col := BUFFER_WIDTH / 4
    row := BUFFER_HEIGHT / 2
    dy := 0
    game_status := GameStatus.GameStopped }

/-- `Debris::new(num, lower_speed, upper_speed)`: three successive draws
from a fresh `Rand32` seeded with `num`.  The Rust code indexes
`DEBRIS_COLORS` with the third draw, which `rand_range` keeps below 13;
`getD` with an arbitrary default is therefore never off the list. -/
def Debris.new (num lower_speed upper_speed : Nat) : Debris :=
  let rng0 := Rand32.new num
  let rr := rng0.rand_range 2 BUFFER_HEIGHT
  let dd := rr.2.rand_range lower_speed upper_speed
  let cc := dd.2.rand_range 0 13
  { col := BUFFER_WIDTH - 1
    row := rr.1
    dx := dd.1
    dx_tick := 0
    color := DEBRIS_COLORS.getD cc.1 Color.Blue
    debris_status := DebrisStatus.Normal }

/-!
## Input events

`pc_keyboard::KeyCode` has many variants; `Player::handle_raw` matches
`ArrowUp`, `ArrowDown` and treats every other raw code identically with a
wildcard arm, so the embedding collapses the rest to one constructor.
-/

inductive KeyCode where
  | ArrowUp
  | ArrowDown
  | OtherRaw
  deriving DecidableEq, Repr

inductive DecodedKey where
  | RawKey (code : KeyCode)
  | Unicode (c : Char)
  deriving DecidableEq, Repr

/-!
## Player operations
-/

/-- `Player::update_location`: one row up (with wraparound over
`BUFFER_HEIGHT`) when `dy < 0`, one row down when `dy > 0`. -/
def Player.update_location (p : Player) : Player :=
  if p.dy < 0 then { p with row := sub1 BUFFER_HEIGHT p.row }
  else if p.dy > 0 then { p with row := add1 BUFFER_HEIGHT p.row }
  else p

/-- `Player::collide`: stop the round (the `clear_row` call is rendering). -/
def Player.collide (p : Player) : Player :=
  { p with game_status := GameStatus.GameStopped }

/-- `Player::tick`: move, then report the (unchanged) status.  The Rust
function returns `Some` on every path; the `Option` is dropped. -/
def Player.tick (p : Player) : Player × GameStatus :=
  let p1 := p.update_location
  (p1, p1.game_status)

/-- `Player::handle_raw`: arrow keys steer only while the round runs. -/
def Player.handle_raw (p : Player) (key : KeyCode) : Player :=
  if p.game_status = GameStatus.GameRunning then
    match key with
    | KeyCode.ArrowUp => { p with dy := -1 }
    | KeyCode.ArrowDown => { p with dy := 1 }
    | KeyCode.OtherRaw => p
  else p

/-- `Player::key`: only raw codes reach `handle_raw`. -/
def Player.key (p : Player) (key : DecodedKey) : Player :=
  match key with
  | DecodedKey.RawKey code => p.handle_raw code
  | DecodedKey.Unicode _ => p

/-!
## Debris operations
-/

/-- `Debris::update_location`: when the delay counter hits 0, move one
column left (wraparound over `BUFFER_WIDTH`) and reload the counter from
`dx`; otherwise just count down. -/
def Debris.update_location (d : Debris) : Debris :=
  if d.dx_tick = 0 then
    { d with col := sub1 BUFFER_WIDTH d.col, dx_tick := d.dx }
  else
    { d with dx_tick := d.dx_tick - 1 }

/-- `Debris::tick(player)`: move, run the coincidence test against the
player, then classify by the new column (18 scores, 0 destroys).  While
the round is stopped nothing moves and the debris asks to be destroyed.
The Rust function returns `Some` on every path; the `Option` is dropped,
and its `clear_current`/`draw_current` calls are rendering. -/
def Debris.tick (d : Debris) (player : Player) : Debris × Player × DebrisStatus :=
  if player.game_status = GameStatus.GameRunning then
    let d1 := d.update_location
    let player1 :=
      if d1.col = player.col ∧ d1.row = player.row then player.collide else player
    if d1.col = 18 then (d1, player1, DebrisStatus.ScorePoint)
    else if d1.col = 0 then (d1, player1, DebrisStatus.Destroy)
    else (d1, player1, DebrisStatus.Normal)
  else (d, player, DebrisStatus.Destroy)

/-!
## Controller
-/

structure SpaceDebrisGame where
  player : Player
  debris : List Debris
  score : Nat
  cw_high_score : Nat
  rmt_high_score : Nat
  n_high_score : Nat
  spawn_countdown : Nat
  spawn_rate : Nat
  seed_count : Nat
  difficulty : Difficulty
  deriving DecidableEq, Repr

/-- `SpaceDebrisGame::default()`. -/
def SpaceDebrisGame.default : SpaceDebrisGame :=
  { player := Player.default
    debris := []
    score := 0
    cw_high_score := 0
    rmt_high_score := 0
    n_high_score := 0
    spawn_countdown := 0
    spawn_rate := 0
    seed_count := 0
    difficulty := Difficulty.Undefined }

/-- `heapless::Vec::<_, 50>::push`: beyond capacity the push returns an
error the game discards, so the element is silently dropped. -/
def pushCap (xs : List Debris) (d : Debris) : List Debris :=
  if xs.length < 50 then xs ++ [d] else xs

/-- `SpaceDebrisGame::update_high_score`: fold `score` into the current
difficulty's best when strictly greater. -/
def SpaceDebrisGame.update_high_score (g : SpaceDebrisGame) : SpaceDebrisGame :=
  match g.difficulty with
  | Difficulty.Undefined => g
  | Difficulty.Cakewalk =>
      if g.cw_high_score < g.score then { g with cw_high_score := g.score } else g
  | Difficulty.RMT =>
      if g.rmt_high_score < g.score then { g with rmt_high_score := g.score } else g
  | Difficulty.Nightmare =>
      if g.n_high_score < g.score then { g with n_high_score := g.score } else g

/-- The debris pass of `SpaceDebrisGame::update`: tick each debris in
insertion order against the evolving player, increment the `u32` score on
each `ScorePoint` whose moment finds the player still running
(`increment_score`), and drop the entries classified `Destroy`.  The Rust
loop collects the `Destroy` indices and removes them afterwards from the
highest index down, which deletes exactly those entries without touching
the others — the recursion here does the same in one pass. -/
def tickDebrisList (p : Player) (score : Nat) :
    List Debris → Player × Nat × List Debris
  | [] => (p, score, [])
  | d :: rest =>
      let t := d.tick p
      let score1 :=
        if t.2.2 = DebrisStatus.ScorePoint then
          if t.2.1.game_status = GameStatus.GameRunning then (score + 1) % U32
          else score
        else score
      let res := tickDebrisList t.2.1 score1 rest
      if t.2.2 = DebrisStatus.Destroy then res
      else (res.1, res.2.1, t.1 :: res.2.2)

/-- `SpaceDebrisGame::create_debris`: bump the seed counter; on a zero
countdown spawn one debris with the active difficulty's speed range (the
`Undefined` arm keeps the local defaults 1 and 5) and reload the
countdown from `spawn_rate`, otherwise count down. -/
def SpaceDebrisGame.create_debris (g : SpaceDebrisGame) : SpaceDebrisGame :=
  let sc := (g.seed_count + 1) % U32
  if g.spawn_countdown = 0 then
    let speeds : Nat × Nat :=
      match g.difficulty with
      | Difficulty.Undefined => (1, 5)
      | Difficulty.Cakewalk => (CW_LOWER_SPEED, CW_UPPER_SPEED)
      | Difficulty.RMT => (RMT_LOWER_SPEED, RMT_UPPER_SPEED)
      | Difficulty.Nightmare => (N_LOWER_SPEED, N_UPPER_SPEED)
    { g with
        seed_count := sc
        debris := pushCap g.debris (Debris.new sc speeds.1 speeds.2)
        spawn_countdown := g.spawn_rate }
  else
    { g with seed_count := sc, spawn_countdown := g.spawn_countdown - 1 }

/-- `SpaceDebrisGame::reset`: restart the round.  Sets the player running
and back to its spawn cell, reloads `spawn_rate` for the (defined)
difficulty, empties the pool and zeroes the score.  The row-clearing and
cell-clearing calls are rendering; note the Rust code touches neither
`player.dy` nor `spawn_countdown` here. -/
def SpaceDebrisGame.reset (g : SpaceDebrisGame) : SpaceDebrisGame :=
  let p1 := { g.player with game_status := GameStatus.GameRunning }
  let sr :=
    match g.difficulty with
    | Difficulty.Undefined => g.spawn_rate
    | Difficulty.Cakewalk => CW_SPAWN_RATE
    | Difficulty.RMT => RMT_SPAWN_RATE
    | Difficulty.Nightmare => N_SPAWN_RATE
  { g with
      player := { p1 with row := BUFFER_HEIGHT / 2, col := BUFFER_WIDTH / 4 }
      spawn_rate := sr
      debris := []
      score := 0 }

/-- `SpaceDebrisGame::update`: one tick.  Bump the seed counter, tick the
player (zeroing its velocity and folding the high score when the round is
found stopped), run the debris pass, then the spawn scheduler. -/
def SpaceDebrisGame.update (g : SpaceDebrisGame) : SpaceDebrisGame :=
  let g0 := { g with seed_count := (g.seed_count + 1) % U32 }
  let pr := g0.player.tick
  let g1 :=
    match pr.2 with
    | GameStatus.GameRunning => { g0 with player := pr.1 }
    | GameStatus.GameStopped =>
        ({ g0 with player := { pr.1 with dy := 0 } }).update_high_score
  let pass := tickDebrisList g1.player g1.score g1.debris
  let g2 := { g1 with player := pass.1, score := pass.2.1, debris := pass.2.2 }
  g2.create_debris

/-- `SpaceDebrisGame::key`: while stopped, a difficulty key selects the
difficulty and resets; every key is then forwarded to the player. -/
def SpaceDebrisGame.key (g : SpaceDebrisGame) (key : DecodedKey) : SpaceDebrisGame :=
  let g1 :=
    if g.player.game_status = GameStatus.GameStopped then
      if key = DecodedKey.Unicode '1' then
        { g with difficulty := Difficulty.Cakewalk }.reset
      else if key = DecodedKey.Unicode '2' then
        { g with difficulty := Difficulty.RMT }.reset
      else if key = DecodedKey.Unicode '3' then
        { g with difficulty := Difficulty.Nightmare }.reset
      else g
    else g
  { g1 with player := g1.player.key key }

/-- One controller invocation from the event loop in `main.rs`: a timer
tick runs `update`, a key event runs `key`. -/
inductive GameOp where
  | tick
  | press (key : DecodedKey)
  deriving DecidableEq, Repr

def applyOp (g : SpaceDebrisGame) : GameOp → SpaceDebrisGame
  | GameOp.tick => g.update
  | GameOp.press k => g.key k

/-!
## Concrete fixtures

States used to instantiate counterexamples and witnesses.
-/

/-- A running player at the spawn cell. -/
def runningPlayer : Player :=
  { col := 20, row := 12, dy := 1, game_status := GameStatus.GameRunning }

/-- A stopped player at the spawn cell. -/
def stoppedPlayer : Player :=
  { col := 20, row := 12, dy := 0, game_status := GameStatus.GameStopped }

/-- A running player on the top row, moving up. -/
def topRowPlayer : Player :=
  { col := 20, row := 0, dy := -1, game_status := GameStatus.GameRunning }

/-- A debris one column right of the score column, about to move. -/
def c1Debris : Debris :=
  { col := 19, row := 5, dx := 1, dx_tick := 0, color := Color.White,
    debris_status := DebrisStatus.Normal }

/-- A mid-flight debris used for the stopped-round theorems. -/
def midDebris : Debris :=
  { col := 40, row := 7, dx := 2, dx_tick := 1, color := Color.Red,
    debris_status := DebrisStatus.Normal }

/-- A stopped game, as right after a collision: non-zero velocity still on
the player, a countdown mid-flight, Cakewalk selected. -/
def c2Game : SpaceDebrisGame :=
  { player := { col := 20, row := 12, dy := 1, game_status := GameStatus.GameStopped }
    debris := [midDebris]
    score := 7
    cw_high_score := 4
    rmt_high_score := 0
    n_high_score := 0
    spawn_countdown := 5
    spawn_rate := 8
    seed_count := 3
    difficulty := Difficulty.Cakewalk }

/-- A running game used to instantiate the running-round theorems. -/
def runningGame : SpaceDebrisGame :=
  { SpaceDebrisGame.default with
      player := runningPlayer
      difficulty := Difficulty.Cakewalk
      spawn_rate := CW_SPAWN_RATE
      spawn_countdown := 3 }

/-- The per-difficulty spawn interval `reset` loads into `spawn_rate`
(the `Undefined` arm of `reset` leaves `spawn_rate` alone). -/
def spawnRateOf : Difficulty → Nat
  | Difficulty.Undefined => 0
  | Difficulty.Cakewalk => CW_SPAWN_RATE
  | Difficulty.RMT => RMT_SPAWN_RATE
  | Difficulty.Nightmare => N_SPAWN_RATE

/-!
## Helper lemmas
-/

lemma update_location_game_status (p : Player) :
    (p.update_location).game_status = p.game_status := by
  unfold Player.update_location
  split
  · rfl
  · split <;> rfl

lemma update_location_col (p : Player) : (p.update_location).col = p.col := by
  unfold Player.update_location
  split
  · rfl
  · split <;> rfl

lemma update_location_dy (p : Player) : (p.update_location).dy = p.dy := by
  unfold Player.update_location
  split
  · rfl
  · split <;> rfl

lemma Debris.tick_stopped (d : Debris) (p : Player)
    (h : p.game_status = GameStatus.GameStopped) :
    d.tick p = (d, p, DebrisStatus.Destroy) := by
  simp [Debris.tick, h]

lemma tickDebrisList_stopped (p : Player) (s : Nat) (ds : List Debris)
    (h : p.game_status = GameStatus.GameStopped) :
    tickDebrisList p s ds = (p, s, []) := by
  induction ds with
  | nil => rfl
  | cons d rest ih => simp [tickDebrisList, Debris.tick_stopped _ _ h, ih]

/-!
## C7: a stopped round drains the pool
-/

/-- Claim C7: while the round is not Running, a debris advance performs no
motion and no collision test — debris and player come back unchanged — and
returns the `Destroy` classification, so the pool pass removes every
debris. -/
theorem C7_stopped_round_drains (d : Debris) (p : Player) (s : Nat)
    (ds : List Debris) (h : p.game_status = GameStatus.GameStopped) :
    d.tick p = (d, p, DebrisStatus.Destroy)
    ∧ tickDebrisList p s ds = (p, s, []) :=
  ⟨Debris.tick_stopped d p h, tickDebrisList_stopped p s ds h⟩

/-- Claim C7, instantiated: a mid-flight debris ticked against a stopped
player is returned unchanged with `Destroy`, and a stopped pool pass over
it drains the pool. -/
theorem C7_witness :
    midDebris.tick stoppedPlayer = (midDebris, stoppedPlayer, DebrisStatus.Destroy)
    ∧ tickDebrisList stoppedPlayer 7 [midDebris] = (stoppedPlayer, 7, []) :=
  C7_stopped_round_drains midDebris stoppedPlayer 7 [midDebris] rfl

/-!
## C4: the player's per-tick advance
-/

/-- Claim C4: with velocity in `{-1, 0, +1}` and the row inside the grid,
one per-tick advance changes the row by exactly the velocity modulo the
grid height (wrapping at both bounds), and the row stays inside
`[0, BUFFER_HEIGHT)`. -/
theorem C4_player_advance (p : Player)
    (hdy : p.dy = -1 ∨ p.dy = 0 ∨ p.dy = 1)
    (hrow : p.row < BUFFER_HEIGHT) :
    ((p.update_location).row : Int) =
      ((p.row : Int) + p.dy) % (BUFFER_HEIGHT : Int)
    ∧ (p.update_location).row < BUFFER_HEIGHT := by
  rcases hdy with h | h | h <;>
    simp only [Player.update_location, h, sub1, add1, safe_add,
      BUFFER_HEIGHT] at hrow ⊢ <;>
    norm_num <;>
    omega

/-- Claim C4, instantiated at the top row moving up: the row wraps to the
bottom row and stays in range. -/
theorem C4_witness :
    ((topRowPlayer.update_location).row : Int) =
      ((topRowPlayer.row : Int) + topRowPlayer.dy) % (BUFFER_HEIGHT : Int)
    ∧ (topRowPlayer.update_location).row < BUFFER_HEIGHT :=
  C4_player_advance topRowPlayer (Or.inl rfl) (by decide)

/-!
## C1: the score column fires once per tick spent on column 18, not once
-/

/-- Claim C1 fails on the code: `Debris::tick` classifies `ScorePoint`
whenever the post-motion column equals 18, and a debris with speed delay
`dx` keeps column 18 for `dx + 1` consecutive ticks while its delay
counter drains.  Here a debris with `dx = 1` that moves onto column 18 is
classified `ScorePoint` on that tick and again on the next one, so the
controller increments the score twice for one crossing. -/
theorem C1_counterexample :
    (c1Debris.tick runningPlayer).2.2 = DebrisStatus.ScorePoint
    ∧ ((c1Debris.tick runningPlayer).1.tick
        (c1Debris.tick runningPlayer).2.1).2.2 = DebrisStatus.ScorePoint := by
  decide

/-- Claim C1 (amended): while the round is Running, a debris advance is
classified `ScorePoint` exactly when the debris's column equals 18 after
the motion step.  Since the column rests at 18 for `dx + 1` consecutive
ticks (one move-in tick plus `dx` delay ticks), the classification fires
on each of those ticks and the controller increments the score once per
such tick — `dx + 1` times per crossing, not exactly once. -/
theorem C1_score_column (d : Debris) (p : Player) :
    (d.tick p).2.2 = DebrisStatus.ScorePoint ↔
      (p.game_status = GameStatus.GameRunning ∧ (d.update_location).col = 18) := by
  by_cases h : p.game_status = GameStatus.GameRunning
  · by_cases hc : (d.update_location).col = 18
    · simp [Debris.tick, h, hc]
    · by_cases h0 : (d.update_location).col = 0
      · simp [Debris.tick, h, hc, h0]
      · simp [Debris.tick, h, hc, h0]
  · simp [Debris.tick, h]

/-!
## C2: reset restores neither the velocity nor the countdown
-/

/-- Claim C2 fails on the code: `reset` touches neither the player's
velocity nor `spawn_countdown`.  Resetting a post-collision Cakewalk state
that still carries velocity 1 and countdown 5 keeps both, where the claim
demands velocity 0 and a countdown set from the difficulty (8 for
Cakewalk). -/
theorem C2_counterexample :
    ¬ ((c2Game.reset).player.dy = 0)
    ∧ ¬ ((c2Game.reset).spawn_countdown = CW_SPAWN_RATE) := by
  decide

/-- Claim C2 (amended): for a defined difficulty, `reset` zeroes the
score, empties the pool, puts the player back on its spawn cell with
status Running and loads `spawn_rate` from the difficulty; the player's
velocity and `spawn_countdown` are left unchanged (the velocity is zeroed
separately, by the first per-tick update that finds the round stopped). -/
theorem C2_reset (g : SpaceDebrisGame)
    (h : g.difficulty ≠ Difficulty.Undefined) :
    (g.reset).score = 0
    ∧ (g.reset).debris = []
    ∧ (g.reset).player.row = BUFFER_HEIGHT / 2
    ∧ (g.reset).player.col = BUFFER_WIDTH / 4
    ∧ (g.reset).player.game_status = GameStatus.GameRunning
    ∧ (g.reset).player.dy = g.player.dy
    ∧ (g.reset).spawn_countdown = g.spawn_countdown
    ∧ (g.reset).spawn_rate = spawnRateOf g.difficulty := by
  rcases hd : g.difficulty with u | c | r | n
  · exact absurd hd h
  all_goals simp [SpaceDebrisGame.reset, spawnRateOf, hd]

/-- Claim C2 (amended), instantiated at the post-collision Cakewalk
state: everything the amended claim promises holds there. -/
theorem C2_witness :
    (c2Game.reset).score = 0
    ∧ (c2Game.reset).debris = []
    ∧ (c2Game.reset).player.row = BUFFER_HEIGHT / 2
    ∧ (c2Game.reset).player.col = BUFFER_WIDTH / 4
    ∧ (c2Game.reset).player.game_status = GameStatus.GameRunning
    ∧ (c2Game.reset).player.dy = c2Game.player.dy
    ∧ (c2Game.reset).spawn_countdown = c2Game.spawn_countdown
    ∧ (c2Game.reset).spawn_rate = spawnRateOf c2Game.difficulty :=
  C2_reset c2Game (by decide)

/-!
## C9 and C3: key handling
-/

lemma key_stopped_raw (g : SpaceDebrisGame) (c : KeyCode)
    (h : g.player.game_status = GameStatus.GameStopped) :
    g.key (DecodedKey.RawKey c) = g := by
  simp [SpaceDebrisGame.key, Player.key, Player.handle_raw, h]

lemma fold_raw_stopped (ks : List KeyCode) :
    ∀ g : SpaceDebrisGame, g.player.game_status = GameStatus.GameStopped →
      (ks.map DecodedKey.RawKey).foldl SpaceDebrisGame.key g = g := by
  induction ks with
  | nil => intro g _; rfl
  | cons k rest ih =>
      intro g h
      simp only [List.map_cons, List.foldl_cons, key_stopped_raw g k h]
      exact ih g h

/-- Claim C9: the player is constructed stopped, so from the initial
controller state any sequence of raw (directional) key events leaves the
player untouched: velocity 0 and the spawn position. -/
theorem C9_initial_raw_keys_noop :
    Player.default.game_status = GameStatus.GameStopped
    ∧ ∀ ks : List KeyCode,
        ((ks.map DecodedKey.RawKey).foldl SpaceDebrisGame.key
            SpaceDebrisGame.default).player.dy = 0
        ∧ ((ks.map DecodedKey.RawKey).foldl SpaceDebrisGame.key
            SpaceDebrisGame.default).player.col = BUFFER_WIDTH / 4
        ∧ ((ks.map DecodedKey.RawKey).foldl SpaceDebrisGame.key
            SpaceDebrisGame.default).player.row = BUFFER_HEIGHT / 2 := by
  refine ⟨rfl, fun ks => ?_⟩
  rw [fold_raw_stopped ks SpaceDebrisGame.default rfl]
  exact ⟨rfl, rfl, rfl⟩

lemma key_running_step (g : SpaceDebrisGame) (k : DecodedKey)
    (h : g.player.game_status = GameStatus.GameRunning) :
    (g.key k).player.game_status = GameStatus.GameRunning
    ∧ ((g.key k).player.dy = g.player.dy
       ∨ (g.key k).player.dy = -1 ∨ (g.key k).player.dy = 1) := by
  rcases k with c | c
  · rcases c <;> simp [SpaceDebrisGame.key, Player.key, Player.handle_raw, h]
  · simp [SpaceDebrisGame.key, Player.key, h]

lemma fold_keys_nonzero (ks : List DecodedKey) :
    ∀ g : SpaceDebrisGame, g.player.game_status = GameStatus.GameRunning →
      g.player.dy ≠ 0 →
      (ks.foldl SpaceDebrisGame.key g).player.dy ≠ 0 := by
  induction ks with
  | nil => intro g _ hz; simpa using hz
  | cons k rest ih =>
      intro g h hz
      simp only [List.foldl_cons]
      have hstep := key_running_step g k h
      refine ih _ hstep.1 ?_
      rcases hstep.2 with h1 | h1 | h1 <;> rw [h1]
      · exact hz
      · decide
      · decide

/-- Claim C3: while the round is Running, ArrowUp sets the velocity to −1
and ArrowDown to +1, every other key event leaves the velocity unchanged,
and once the velocity is non-zero no sequence of key events returns it to
exactly 0. -/
theorem C3_velocity_never_zeroed (g : SpaceDebrisGame)
    (h : g.player.game_status = GameStatus.GameRunning) :
    (g.key (DecodedKey.RawKey KeyCode.ArrowUp)).player.dy = -1
    ∧ (g.key (DecodedKey.RawKey KeyCode.ArrowDown)).player.dy = 1
    ∧ (∀ k : DecodedKey, k ≠ DecodedKey.RawKey KeyCode.ArrowUp →
        k ≠ DecodedKey.RawKey KeyCode.ArrowDown →
        (g.key k).player.dy = g.player.dy)
    ∧ (g.player.dy ≠ 0 → ∀ ks : List DecodedKey,
        (ks.foldl SpaceDebrisGame.key g).player.dy ≠ 0) := by
  refine ⟨?_, ?_, ?_, fun hz ks => fold_keys_nonzero ks g h hz⟩
  · simp [SpaceDebrisGame.key, Player.key, Player.handle_raw, h]
  · simp [SpaceDebrisGame.key, Player.key, Player.handle_raw, h]
  · intro k hup hdown
    rcases k with c | c
    · rcases c
      · exact absurd rfl hup
      · exact absurd rfl hdown
      · simp [SpaceDebrisGame.key, Player.key, Player.handle_raw, h]
    · simp [SpaceDebrisGame.key, Player.key, h]

/-- Claim C3, instantiated at a running game with velocity already 1: the
arrow keys steer, a letter key is a no-op, and no key sequence zeroes the
velocity. -/
theorem C3_witness :
    (runningGame.key (DecodedKey.RawKey KeyCode.ArrowUp)).player.dy = -1
    ∧ (runningGame.key (DecodedKey.RawKey KeyCode.ArrowDown)).player.dy = 1
    ∧ (∀ k : DecodedKey, k ≠ DecodedKey.RawKey KeyCode.ArrowUp →
        k ≠ DecodedKey.RawKey KeyCode.ArrowDown →
        (runningGame.key k).player.dy = runningGame.player.dy)
    ∧ (runningGame.player.dy ≠ 0 → ∀ ks : List DecodedKey,
        (ks.foldl SpaceDebrisGame.key runningGame).player.dy ≠ 0) :=
  C3_velocity_never_zeroed runningGame rfl

/-!
## Preservation lemmas for the controller's update
-/

lemma update_high_score_preserves (g : SpaceDebrisGame) :
    (g.update_high_score).player = g.player
    ∧ (g.update_high_score).debris = g.debris
    ∧ (g.update_high_score).score = g.score
    ∧ (g.update_high_score).spawn_countdown = g.spawn_countdown
    ∧ (g.update_high_score).spawn_rate = g.spawn_rate
    ∧ (g.update_high_score).seed_count = g.seed_count
    ∧ (g.update_high_score).difficulty = g.difficulty := by
  rcases hd : g.difficulty <;>
    simp only [SpaceDebrisGame.update_high_score, hd] <;>
    (try split) <;>
    simp [hd]

lemma create_debris_preserves (g : SpaceDebrisGame) :
    (g.create_debris).player = g.player
    ∧ (g.create_debris).cw_high_score = g.cw_high_score
    ∧ (g.create_debris).rmt_high_score = g.rmt_high_score
    ∧ (g.create_debris).n_high_score = g.n_high_score
    ∧ (g.create_debris).score = g.score := by
  simp only [SpaceDebrisGame.create_debris]
  split <;> exact ⟨rfl, rfl, rfl, rfl, rfl⟩

lemma update_high_score_player (g : SpaceDebrisGame) :
    (g.update_high_score).player = g.player :=
  (update_high_score_preserves g).1

lemma create_debris_player (g : SpaceDebrisGame) :
    (g.create_debris).player = g.player :=
  (create_debris_preserves g).1

lemma update_stopped_status (g : SpaceDebrisGame)
    (h : g.player.game_status = GameStatus.GameStopped) :
    (g.update).player.game_status = GameStatus.GameStopped := by
  simp [SpaceDebrisGame.update, Player.tick, update_location_game_status, h,
    update_high_score_player, create_debris_player, tickDebrisList_stopped]

/-!
## C8: collision stops the round; only reset restarts it
-/

/-- Claim C8: coincidence of the moved debris with the player while the
round runs stops the player; once stopped, the per-tick update keeps the
round stopped, a non-difficulty key keeps it stopped (so the transition to
Stopped happens at most once per round), and `reset` is what sets the
status back to Running. -/
theorem C8_collision_transitions (d : Debris) (p : Player)
    (g : SpaceDebrisGame) (k : DecodedKey) :
    (p.game_status = GameStatus.GameRunning →
      (d.update_location).col = p.col → (d.update_location).row = p.row →
      (d.tick p).2.1.game_status = GameStatus.GameStopped)
    ∧ (g.player.game_status = GameStatus.GameStopped →
        (g.update).player.game_status = GameStatus.GameStopped)
    ∧ (g.player.game_status = GameStatus.GameStopped →
        k ≠ DecodedKey.Unicode '1' → k ≠ DecodedKey.Unicode '2' →
        k ≠ DecodedKey.Unicode '3' →
        (g.key k).player.game_status = GameStatus.GameStopped)
    ∧ (g.reset).player.game_status = GameStatus.GameRunning := by
  refine ⟨?_, fun h => update_stopped_status g h, ?_, rfl⟩
  · intro h hc hr
    have htrue : (d.update_location).col = p.col
        ∧ (d.update_location).row = p.row := ⟨hc, hr⟩
    simp only [Debris.tick, if_pos h, if_pos htrue]
    split
    · rfl
    · split <;> rfl
  · intro h h1 h2 h3
    rcases k with c | c
    · simp [SpaceDebrisGame.key, Player.key, Player.handle_raw, h]
    · have hc1 : c ≠ '1' := fun e => h1 (by rw [e])
      have hc2 : c ≠ '2' := fun e => h2 (by rw [e])
      have hc3 : c ≠ '3' := fun e => h3 (by rw [e])
      simp [SpaceDebrisGame.key, Player.key, h, hc1, hc2, hc3]

/-!
## C6: high scores never decrease
-/

lemma create_debris_cw (g : SpaceDebrisGame) :
    (g.create_debris).cw_high_score = g.cw_high_score :=
  (create_debris_preserves g).2.1

lemma create_debris_rmt (g : SpaceDebrisGame) :
    (g.create_debris).rmt_high_score = g.rmt_high_score :=
  (create_debris_preserves g).2.2.1

lemma create_debris_n (g : SpaceDebrisGame) :
    (g.create_debris).n_high_score = g.n_high_score :=
  (create_debris_preserves g).2.2.2.1

lemma update_high_monotone (g : SpaceDebrisGame) :
    g.cw_high_score ≤ (g.update_high_score).cw_high_score
    ∧ g.rmt_high_score ≤ (g.update_high_score).rmt_high_score
    ∧ g.n_high_score ≤ (g.update_high_score).n_high_score := by
  rcases hd : g.difficulty <;>
    simp only [SpaceDebrisGame.update_high_score, hd] <;>
    (try split) <;>
    simp <;>
    omega

lemma update_high_monotone_of (g G : SpaceDebrisGame)
    (h1 : G.cw_high_score = g.cw_high_score)
    (h2 : G.rmt_high_score = g.rmt_high_score)
    (h3 : G.n_high_score = g.n_high_score) :
    g.cw_high_score ≤ (G.update_high_score).cw_high_score
    ∧ g.rmt_high_score ≤ (G.update_high_score).rmt_high_score
    ∧ g.n_high_score ≤ (G.update_high_score).n_high_score := by
  rw [← h1, ← h2, ← h3]
  exact update_high_monotone G

lemma update_step_monotone (g : SpaceDebrisGame) :
    g.cw_high_score ≤ (g.update).cw_high_score
    ∧ g.rmt_high_score ≤ (g.update).rmt_high_score
    ∧ g.n_high_score ≤ (g.update).n_high_score := by
  simp only [SpaceDebrisGame.update, Player.tick]
  split
  · simp [create_debris_cw, create_debris_rmt, create_debris_n]
  · simp only [create_debris_cw, create_debris_rmt, create_debris_n]
    exact update_high_monotone_of g _ rfl rfl rfl

lemma key_high_eq (g : SpaceDebrisGame) (k : DecodedKey) :
    (g.key k).cw_high_score = g.cw_high_score
    ∧ (g.key k).rmt_high_score = g.rmt_high_score
    ∧ (g.key k).n_high_score = g.n_high_score := by
  by_cases h : g.player.game_status = GameStatus.GameStopped <;>
    by_cases h1 : k = DecodedKey.Unicode '1' <;>
      by_cases h2 : k = DecodedKey.Unicode '2' <;>
        by_cases h3 : k = DecodedKey.Unicode '3' <;>
          simp [SpaceDebrisGame.key, SpaceDebrisGame.reset, h, h1, h2, h3]

lemma applyOp_monotone (g : SpaceDebrisGame) (op : GameOp) :
    g.cw_high_score ≤ (applyOp g op).cw_high_score
    ∧ g.rmt_high_score ≤ (applyOp g op).rmt_high_score
    ∧ g.n_high_score ≤ (applyOp g op).n_high_score := by
  rcases op with _ | k
  · exact update_step_monotone g
  · have h := key_high_eq g k
    simp only [applyOp, h.1, h.2.1, h.2.2]
    exact ⟨le_refl _, le_refl _, le_refl _⟩

lemma foldl_high_monotone (ops : List GameOp) :
    ∀ g : SpaceDebrisGame,
      g.cw_high_score ≤ (ops.foldl applyOp g).cw_high_score
      ∧ g.rmt_high_score ≤ (ops.foldl applyOp g).rmt_high_score
      ∧ g.n_high_score ≤ (ops.foldl applyOp g).n_high_score := by
  induction ops with
  | nil => intro g; exact ⟨le_refl _, le_refl _, le_refl _⟩
  | cons op rest ih =>
      intro g
      have h1 := applyOp_monotone g op
      have h2 := ih (applyOp g op)
      simp only [List.foldl_cons]
      exact ⟨h1.1.trans h2.1, h1.2.1.trans h2.2.1, h1.2.2.trans h2.2.2⟩

/-- Claim C6: across any sequence of controller operations (ticks and key
events, hence also the resets keys trigger), no difficulty's high score
ever decreases; and `update_high_score` changes a difficulty's entry only
by folding in the current score when it is strictly greater. -/
theorem C6_high_scores_monotone (ops : List GameOp) (g : SpaceDebrisGame) :
    (g.cw_high_score ≤ (ops.foldl applyOp g).cw_high_score
     ∧ g.rmt_high_score ≤ (ops.foldl applyOp g).rmt_high_score
     ∧ g.n_high_score ≤ (ops.foldl applyOp g).n_high_score)
    ∧ ((g.update_high_score).cw_high_score =
        if g.difficulty = Difficulty.Cakewalk ∧ g.cw_high_score < g.score
        then g.score else g.cw_high_score)
    ∧ ((g.update_high_score).rmt_high_score =
        if g.difficulty = Difficulty.RMT ∧ g.rmt_high_score < g.score
        then g.score else g.rmt_high_score)
    ∧ ((g.update_high_score).n_high_score =
        if g.difficulty = Difficulty.Nightmare ∧ g.n_high_score < g.score
        then g.score else g.n_high_score) := by
  refine ⟨foldl_high_monotone ops g, ?_, ?_, ?_⟩ <;>
    rcases hd : g.difficulty <;>
      simp only [SpaceDebrisGame.update_high_score, hd] <;>
      (try split) <;>
      (try simp_all) <;>
      (try split) <;>
      omega

/-!
## C10: spawning runs regardless of status; a stopped pool stays ≤ 1
-/

lemma create_debris_len_empty (g : SpaceDebrisGame) (h : g.debris = []) :
    (g.create_debris).debris.length = if g.spawn_countdown = 0 then 1 else 0 := by
  simp only [SpaceDebrisGame.create_debris]
  split <;> simp [h, pushCap, *]

lemma update_stopped_debris_len (g : SpaceDebrisGame)
    (h : g.player.game_status = GameStatus.GameStopped) :
    (g.update).debris.length = if g.spawn_countdown = 0 then 1 else 0 := by
  simp [SpaceDebrisGame.update, Player.tick, update_location_game_status, h,
    update_high_score_preserves, tickDebrisList_stopped, create_debris_len_empty]

/-- Claim C10: the per-tick update runs the spawn scheduler regardless of
status.  While the game is stopped the pool pass first drains every
debris, then one debris is pushed exactly when `spawn_countdown` is 0, so
the pool size after a stopped tick is at most 1; in the initial title
state (difficulty `Undefined`, `spawn_rate` 0) every tick pushes a fresh
debris built with the default speed bounds 1 and 5. -/
theorem C10_stopped_spawn (g : SpaceDebrisGame)
    (h : g.player.game_status = GameStatus.GameStopped) :
    (g.update).debris.length = (if g.spawn_countdown = 0 then 1 else 0)
    ∧ (g.update).debris.length ≤ 1
    ∧ SpaceDebrisGame.default.difficulty = Difficulty.Undefined
    ∧ SpaceDebrisGame.default.spawn_rate = 0
    ∧ SpaceDebrisGame.default.update.debris = [Debris.new 2 1 5] := by
  refine ⟨update_stopped_debris_len g h, ?_, rfl, rfl, ?_⟩
  · rw [update_stopped_debris_len g h]
    split <;> omega
  · decide

/-- Claim C10, instantiated at the initial controller state: its countdown
is 0, so the first tick leaves exactly one (immediately doomed) debris in
the pool. -/
theorem C10_witness :
    (SpaceDebrisGame.default.update).debris.length =
      (if SpaceDebrisGame.default.spawn_countdown = 0 then 1 else 0)
    ∧ (SpaceDebrisGame.default.update).debris.length ≤ 1
    ∧ SpaceDebrisGame.default.difficulty = Difficulty.Undefined
    ∧ SpaceDebrisGame.default.spawn_rate = 0
    ∧ SpaceDebrisGame.default.update.debris = [Debris.new 2 1 5] :=
  C10_stopped_spawn SpaceDebrisGame.default rfl

/-!
## C5: spawning is deterministic and in range
-/

lemma rand_u32_lt (rng : Rand32) : (rng.rand_u32).1 < U32 := by
  simp only [Rand32.rand_u32, ror32]
  exact Nat.mod_lt _ (by decide)

lemma rand_range_go_lt (s t : Nat) (hs : 0 < s) :
    ∀ (fuel m : Nat) (rng : Rand32), m < U32 * s →
      (Rand32.rand_range_go s t fuel m rng).1 < U32 * s := by
  intro fuel
  induction fuel with
  | zero => intro m rng hm; simpa [Rand32.rand_range_go] using hm
  | succ n ih =>
      intro m rng hm
      rw [Rand32.rand_range_go]
      split
      · exact ih _ _ (mul_lt_mul_of_pos_right (rand_u32_lt rng) hs)
      · exact hm

lemma rand_range_mem (rng : Rand32) (start stop : Nat) (h : start < stop) :
    start ≤ (rng.rand_range start stop).1
    ∧ (rng.rand_range start stop).1 < stop := by
  have hs : 0 < stop - start := by omega
  simp only [Rand32.rand_range]
  refine ⟨Nat.le_add_left _ _, ?_⟩
  have hgo := rand_range_go_lt (stop - start)
    (if stop - start = 0 then 0 else U32 % (stop - start)) hs 64
    ((rng.rand_u32).1 * (stop - start)) (rng.rand_u32).2
    (mul_lt_mul_of_pos_right (rand_u32_lt rng) hs)
  have hdiv := Nat.div_lt_of_lt_mul hgo
  omega

lemma getD_palette (ci : Nat) (h : ci < 13) :
    DEBRIS_COLORS.getD ci Color.Blue ∈ DEBRIS_COLORS := by
  interval_cases ci <;> decide

/-- Claim C5: `Debris::new` is a pure function of `(seed, lower, upper)` —
equal arguments give an equal debris — and for `lower < upper` the spawned
debris starts on the rightmost column with a row in `[2, BUFFER_HEIGHT)`,
a speed in `[lower, upper)` and a color from the 13-color palette. -/
theorem C5_spawn_deterministic (num lower_speed upper_speed : Nat)
    (h : lower_speed < upper_speed) :
    (Debris.new num lower_speed upper_speed).col = BUFFER_WIDTH - 1
    ∧ 2 ≤ (Debris.new num lower_speed upper_speed).row
    ∧ (Debris.new num lower_speed upper_speed).row < BUFFER_HEIGHT
    ∧ lower_speed ≤ (Debris.new num lower_speed upper_speed).dx
    ∧ (Debris.new num lower_speed upper_speed).dx < upper_speed
    ∧ (Debris.new num lower_speed upper_speed).color ∈ DEBRIS_COLORS
    ∧ ∀ n2 l2 u2 : Nat, n2 = num → l2 = lower_speed → u2 = upper_speed →
        Debris.new n2 l2 u2 = Debris.new num lower_speed upper_speed := by
  have hrow := rand_range_mem (Rand32.new num) 2 BUFFER_HEIGHT (by decide)
  have hdx := rand_range_mem
    ((Rand32.new num).rand_range 2 BUFFER_HEIGHT).2 lower_speed upper_speed h
  have hcol := rand_range_mem
    (((Rand32.new num).rand_range 2 BUFFER_HEIGHT).2.rand_range
      lower_speed upper_speed).2 0 13 (by decide)
  refine ⟨rfl, hrow.1, hrow.2, hdx.1, hdx.2, getD_palette _ hcol.2, ?_⟩
  intro n2 l2 u2 h1 h2 h3
  rw [h1, h2, h3]

/-- Claim C5, instantiated at seed 2 with the default speed bounds. -/
theorem C5_witness :
    (Debris.new 2 1 5).col = BUFFER_WIDTH - 1
    ∧ 2 ≤ (Debris.new 2 1 5).row
    ∧ (Debris.new 2 1 5).row < BUFFER_HEIGHT
    ∧ 1 ≤ (Debris.new 2 1 5).dx
    ∧ (Debris.new 2 1 5).dx < 5
    ∧ (Debris.new 2 1 5).color ∈ DEBRIS_COLORS
    ∧ ∀ n2 l2 u2 : Nat, n2 = 2 → l2 = 1 → u2 = 5 →
        Debris.new n2 l2 u2 = Debris.new 2 1 5 :=
  C5_spawn_deterministic 2 1 5 (by decide)
